import Mathlib

/-!
Verification development for the Shadow Enchanters backend
(`src/main.py` and `src/backend/main.py`): the house registry, the two
quiz scorers, the points ledger and the signup / quiz-submission
endpoints, shallowly embedded over an explicit store state.
-/

/-- The fixed house list `HOUSES` (src/main.py line 28, src/backend/main.py line 47). -/
def HOUSES : List String := ["Gryffindor", "Slytherin", "Hufflepuff", "Ravenclaw"]

/-- The Python dict `scores = {h: 0 for h in HOUSES}`: four counters in the
fixed insertion order Gryffindor, Slytherin, Hufflepuff, Ravenclaw. -/
structure Scores where
  gryffindor : Nat
  slytherin : Nat
  hufflepuff : Nat
  ravenclaw : Nat
deriving DecidableEq

/-- `scores.items()` in dict insertion order. -/
def Scores.toItems (sc : Scores) : List (String × Nat) :=
  [("Gryffindor", sc.gryffindor), ("Slytherin", sc.slytherin),
   ("Hufflepuff", sc.hufflepuff), ("Ravenclaw", sc.ravenclaw)]

/-- Python `max(iterable, key=lambda x: x[1])` on a nonempty list split as
head and tail: keeps the current best and replaces it only when a later
item's key is strictly greater, so the FIRST maximal item wins. -/
def pyMaxBySnd (b : String × Nat) (rest : List (String × Nat)) : String × Nat :=
  rest.foldl (fun best y => if best.2 < y.2 then y else best) b

/-- `max(scores.items(), key=lambda x: x[1])[0]` (src/main.py line 117,
src/backend/main.py line 91). -/
def Scores.best (sc : Scores) : String :=
  (pyMaxBySnd ("Gryffindor", sc.gryffindor)
    [("Slytherin", sc.slytherin), ("Hufflepuff", sc.hufflepuff),
     ("Ravenclaw", sc.ravenclaw)]).1

/-- `scores[HOUSES[idx]] += 1` for an index already known to lie in 0..3. -/
def Scores.bumpAt (sc : Scores) (idx : Nat) : Scores :=
  match idx with
  | 0 => { sc with gryffindor := sc.gryffindor + 1 }
  | 1 => { sc with slytherin := sc.slytherin + 1 }
  | 2 => { sc with hufflepuff := sc.hufflepuff + 1 }
  | _ => { sc with ravenclaw := sc.ravenclaw + 1 }

/-- The tally at position `idx` of the fixed house ordering. -/
def Scores.tallyAt (sc : Scores) (idx : Nat) : Nat :=
  match idx with
  | 0 => sc.gryffindor
  | 1 => sc.slytherin
  | 2 => sc.hufflepuff
  | _ => sc.ravenclaw

/-- The tally of a house given by name (0 for a non-house string). -/
def Scores.tallyOf (sc : Scores) (h : String) : Nat :=
  if h == "Gryffindor" then sc.gryffindor
  else if h == "Slytherin" then sc.slytherin
  else if h == "Hufflepuff" then sc.hufflepuff
  else if h == "Ravenclaw" then sc.ravenclaw
  else 0

/-- Position of a house name in the canonical ordering (4 for outsiders). -/
def houseIdx (h : String) : Nat :=
  if h == "Gryffindor" then 0
  else if h == "Slytherin" then 1
  else if h == "Hufflepuff" then 2
  else if h == "Ravenclaw" then 3
  else 4

/-- A quiz answer of the numeric form (src/backend/main.py lines 35-37). -/
structure QuizAnswer where
  question_id : Int
  answer_value : Int
deriving DecidableEq

/-- `max(0, min(3, a.answer_value))` (src/backend/main.py line 88), as the
natural-number index into the fixed house ordering. -/
def clampIdx (v : Int) : Nat := (max 0 (min 3 v)).toNat

/-- Loop body of `assign_house_from_quiz` (src/backend/main.py lines 87-89). -/
def numStep (sc : Scores) (a : QuizAnswer) : Scores :=
  sc.bumpAt (clampIdx a.answer_value)

/-- The tallies the numeric scorer accumulates over the answer list. -/
def numTallies (answers : List QuizAnswer) : Scores :=
  answers.foldl numStep ⟨0, 0, 0, 0⟩

/-- `assign_house_from_quiz` (src/backend/main.py lines 84-92): clamped
index voting, then Python max over the dict items. -/
def assign_house_from_quiz (answers : List QuizAnswer) : String :=
  (numTallies answers).best

/-- Lowercased character sequence of a Python string: `a.lower()`
(src/main.py line 107), ASCII-faithful. -/
def lc (s : String) : List Char := s.data.map Char.toLower

/-- Substring test: `k in al` for Python strings. -/
def containsSub (hay needle : List Char) : Bool :=
  match hay with
  | [] => needle.isEmpty
  | _ :: t => needle.isPrefixOf hay || containsSub t needle

/-- Gryffindor keyword set (src/main.py line 108). -/
def gryffKeys : List String := ["brave", "courage", "daring", "bold"]

/-- Slytherin keyword set (src/main.py line 110). -/
def slythKeys : List String := ["ambition", "cunning", "power", "lead"]

/-- Hufflepuff keyword set (src/main.py line 112). -/
def huffKeys : List String := ["loyal", "patience", "kind", "fair"]

/-- Ravenclaw keyword set (src/main.py line 114). -/
def ravenKeys : List String := ["wisdom", "learn", "wit", "clever"]

/-- `any(k in al for k in keys)`. -/
def matchesAny (al : List Char) (keys : List String) : Bool :=
  keys.any (fun k => containsSub al k.data)

/-- Loop body of `map_quiz_to_house` (src/main.py lines 106-115): four
independent `if`s, one per house keyword set. -/
def kwStep (sc : Scores) (a : String) : Scores :=
  let al := lc a
  let sc1 := if matchesAny al gryffKeys then { sc with gryffindor := sc.gryffindor + 1 } else sc
  let sc2 := if matchesAny al slythKeys then { sc1 with slytherin := sc1.slytherin + 1 } else sc1
  let sc3 := if matchesAny al huffKeys then { sc2 with hufflepuff := sc2.hufflepuff + 1 } else sc2
  if matchesAny al ravenKeys then { sc3 with ravenclaw := sc3.ravenclaw + 1 } else sc3

/-- The tallies the keyword scorer accumulates over the answer list. -/
def kwTallies (answers : List String) : Scores :=
  answers.foldl kwStep ⟨0, 0, 0, 0⟩

/-- `map_quiz_to_house` (src/main.py lines 103-118): keyword tallies, then
Python max over the dict items. -/
def map_quiz_to_house (answers : List String) : String :=
  (kwTallies answers).best

/-! ## The store state

The Supabase tables `students`, `houses`, `point_transactions` and
`quiz_answers`, as lists of rows in insertion order.  `insert` appends;
`update ... eq k` rewrites every matching row in place; `upsert ...
on_conflict=k` (the client's default merge-duplicates resolution) rewrites
the conflicting row with the supplied values, else appends. -/

/-- A `students` row (src/main.py lines 168-177). -/
structure Student where
  id : String
  name : String
  email : String
  phone : Option String
  instagram : Option String
  linkedin : Option String
  assigned_house : Option String
  total_points : Int
deriving DecidableEq

/-- A `houses` row. -/
structure House where
  name : String
  total_points : Int
deriving DecidableEq

/-- A `point_transactions` row (src/main.py lines 256-260); list position
stands for the monotone creation timestamp. -/
structure PointTransaction where
  student_id : String
  delta : Int
  reason : String
deriving DecidableEq

/-- A `quiz_answers` row (src/main.py lines 190-193). -/
structure QuizAnswerRow where
  student_id : String
  answers : List String
deriving DecidableEq

/-- The persistent store. -/
structure DB where
  students : List Student
  houses : List House
  point_transactions : List PointTransaction
  quiz_answers : List QuizAnswerRow
deriving DecidableEq

/-- `table("houses").upsert(row, on_conflict="name")` with the client's
default merge-duplicates resolution: the conflicting row is overwritten
with the supplied values, otherwise the row is appended. -/
def upsertHouse (hs : List House) (r : House) : List House :=
  if hs.any (fun h => h.name == r.name) then
    hs.map (fun h => if h.name == r.name then r else h)
  else hs ++ [r]

/-- `table("students").upsert(profile, on_conflict="id")`, same semantics. -/
def upsertStudent (ss : List Student) (r : Student) : List Student :=
  if ss.any (fun s => s.id == r.id) then
    ss.map (fun s => if s.id == r.id then r else s)
  else ss ++ [r]

/-- `ensure_houses_seeded` (src/main.py lines 68-72): upserts
`{"name": h, "total_points": 0}` for each of the four houses. -/
def ensure_houses_seeded (db : DB) : DB :=
  { db with houses :=
      HOUSES.foldl (fun hs n => upsertHouse hs ⟨n, 0⟩) db.houses }

/-- Modelled from the spec: the SQL function `ensure_house_exists` invoked
by RPC (src/main.py line 79) is not in the repository; per the spec it is
idempotent, creates the house with zero total if absent and is a no-op
otherwise.  This is the primary path of `ensure_house_exists`
(src/main.py lines 75-82); its upsert fallback runs only when the RPC
raises and is `upsertHouse hs ⟨name, 0⟩`. -/
def ensure_house_exists (hs : List House) (name : String) : List House :=
  if hs.any (fun h => h.name == name) then hs else hs ++ [⟨name, 0⟩]

/-- Modelled from the spec: the SQL function `adjust_house_points` invoked
by RPC (src/main.py line 90) is not in the repository; per the spec it
atomically adds `delta` to the named house's total, creating the house
with total `delta` when absent.  This is the primary path of
`adjust_house_points` (src/main.py lines 85-100), which is a no-op for an
unassigned house; the read-modify-write fallback of lines 96-100 is
modelled separately below as `rmwStep`. -/
def adjust_house_points (hs : List House) (house : Option String) (delta : Int) : List House :=
  match house with
  | none => hs
  | some name =>
    if hs.any (fun h => h.name == name) then
      hs.map (fun h => if h.name == name then { h with total_points := h.total_points + delta } else h)
    else hs ++ [⟨name, delta⟩]

/-- Error kinds surfaced by the endpoints. -/
inductive ApiError where
  | notFound
deriving DecidableEq

/-- Body of `POST /admin/points` (src/main.py lines 54-57). -/
structure PointsRequest where
  student_id : String
  delta : Int
  reason : String
deriving DecidableEq

/-- `admin_points` (src/main.py lines 244-269): select the student (404 if
absent, before any write), insert the transaction, persist
`new_total = total_points + delta` on the student, adjust the assigned
house's aggregate, return `new_total`.  The state is returned alongside
the result; the 404 path returns it unchanged. -/
def admin_points (db : DB) (p : PointsRequest) : DB × Except ApiError Int :=
  match db.students.find? (fun s => s.id == p.student_id) with
  | none => (db, Except.error ApiError.notFound)
  | some student =>
    let tx : PointTransaction := ⟨p.student_id, p.delta, p.reason⟩
    let db1 := { db with point_transactions := db.point_transactions ++ [tx] }
    let new_total := student.total_points + p.delta
    let upd := fun (s : Student) => if s.id == p.student_id then { s with total_points := new_total } else s
    let db2 := { db1 with students := db1.students.map upd }
    let db3 := { db2 with houses := adjust_house_points db2.houses student.assigned_house p.delta }
    (db3, Except.ok new_total)

/-- A sequence of `admin_points` calls on one student id with a fixed
reason, threading the store. -/
def applyDeltas (sid r : String) (db : DB) (ds : List Int) : DB :=
  ds.foldl (fun d δ => (admin_points d ⟨sid, δ, r⟩).1) db

/-- Number of ledger entries recorded for a student. -/
def countTx (db : DB) (sid : String) : Nat :=
  (db.point_transactions.filter (fun t => t.student_id == sid)).length

/-- Body of `POST /auth/signup` (src/main.py lines 43-49). -/
structure SignupRequest where
  name : String
  email : String
  phone : Option String
  instagram : Option String
  linkedin : Option String
deriving DecidableEq

/-- The store effect of `signup` (src/main.py lines 143-179) once the
identity collaborator has yielded `user_id` (for an already-registered
email this is the existing user's id): seed the houses, then upsert the
fresh profile with `assigned_house = None` and `total_points = 0` keyed
by id. -/
def signup_profile (db : DB) (user_id : String) (p : SignupRequest) : DB :=
  let db1 := ensure_houses_seeded db
  let profile : Student := ⟨user_id, p.name, p.email, p.phone, p.instagram, p.linkedin, none, 0⟩
  { db1 with students := upsertStudent db1.students profile }

/-- `submit_quiz` (src/main.py lines 184-199): no existence check on
`user_id`; score the answers, insert the `quiz_answers` row, ensure the
house exists, update `assigned_house` on every matching student row
(possibly zero rows), return the house. -/
def submit_quiz (db : DB) (user_id : String) (answers : List String) : DB × String :=
  let house := map_quiz_to_house answers
  let row : QuizAnswerRow := ⟨user_id, answers⟩
  let db1 := { db with quiz_answers := db.quiz_answers ++ [row] }
  let db2 := { db1 with houses := ensure_house_exists db1.houses house }
  let upd := fun (s : Student) => if s.id == user_id then { s with assigned_house := some house } else s
  let db3 := { db2 with students := db2.students.map upd }
  (db3, house)

/-! ## The read-modify-write fallback of `adjust_house_points`

src/main.py lines 96-100: read the current total, then write
`current + delta` — two separate store operations.  A client is one
in-flight fallback call; a schedule interleaves the clients' steps. -/

/-- One in-flight fallback `adjust_house_points` call: its delta, the
total it has read (none before its read step), and whether it has
written. -/
structure RMWClient where
  delta : Int
  readVal : Option Int
  written : Bool
deriving DecidableEq

/-- One store round-trip of the fallback: read the house total
(src/main.py lines 96-99) or write `current + delta` (line 100). -/
def rmwStep (total : Int) (c : RMWClient) : Int × RMWClient :=
  match c.readVal, c.written with
  | none, _ => (total, { c with readVal := some total })
  | some v, false => (v + c.delta, { c with written := true })
  | some _, true => (total, c)

/-- Run a schedule (a list of client indices) of interleaved fallback
calls against a single house total. -/
def runRMWSchedule (total : Int) (cs : List RMWClient) (sched : List Nat) : Int × List RMWClient :=
  sched.foldl
    (fun st i =>
      match st.2.get? i with
      | none => st
      | some c =>
        let r := rmwStep st.1 c
        (r.1, st.2.set i r.2))
    (total, cs)

/-! ## Helper lemmas -/

/-- Updating (with a key-preserving rewrite) exactly the rows matching a
key keeps the first matching row first, now rewritten. -/
theorem find?_map_key {α : Type} (key : α → String) (k : String) (g : α → α)
    (hg : ∀ x, key x = k → key (g x) = k) (l : List α) :
    ∀ s : α, l.find? (fun x => key x == k) = some s →
      (l.map (fun x => if key x == k then g x else x)).find? (fun x => key x == k) = some (g s) := by
  induction l with
  | nil => intro s h; simp at h
  | cons a t ih =>
    intro s h
    by_cases ha : key a = k
    · have hpa : (key a == k) = true := by simp [ha]
      rw [List.find?_cons, hpa] at h
      injection h with h
      subst h
      have hga : (key (g a) == k) = true := by simp [hg a ha]
      simp only [List.map_cons, if_pos hpa, List.find?_cons, hga]
    · have hpa : (key a == k) = false := by simp [ha]
      rw [List.find?_cons, hpa] at h
      simp only [List.map_cons, hpa, Bool.false_eq_true, if_false, List.find?_cons]
      exact ih s h

/-- A conditional rewrite whose guard matches no row is the identity. -/
theorem map_if_id_of_find?_none {α : Type} (p : α → Bool) (g : α → α) (l : List α)
    (h : l.find? p = none) : l.map (fun x => if p x then g x else x) = l := by
  induction l with
  | nil => rfl
  | cons a t ih =>
    rw [List.find?_cons] at h
    cases hpa : p a with
    | true => rw [hpa] at h; simp at h
    | false =>
      rw [hpa] at h
      simp only [List.map_cons, hpa, Bool.false_eq_true, if_false]
      rw [ih h]

/-- A successful `find?` witnesses `any`. -/
theorem any_of_find?_some {α : Type} (p : α → Bool) (l : List α) (s : α)
    (h : l.find? p = some s) : l.any p = true := by
  have hm := List.mem_of_find?_eq_some h
  have hp := List.find?_some h
  exact List.any_eq_true.mpr ⟨s, hm, hp⟩

/-- Adjusting an existing house rewrites just its total. -/
theorem adjust_house_points_find (hs : List House) (name : String) (hh : House)
    (h : hs.find? (fun x => x.name == name) = some hh) (d : Int) :
    (adjust_house_points hs (some name) d).find? (fun x => x.name == name)
      = some { hh with total_points := hh.total_points + d } := by
  simp only [adjust_house_points]
  rw [if_pos (any_of_find?_some _ hs hh h)]
  exact find?_map_key House.name name
    (fun x => { x with total_points := x.total_points + d }) (fun x hx => hx) hs hh h

/-- First-seen-max semantics of `Scores.best`: the winner together with
the exact comparisons Python's `max` resolves, house by house. -/
theorem Scores.best_spec (sc : Scores) :
    (sc.best = "Gryffindor" ∧ sc.slytherin ≤ sc.gryffindor ∧ sc.hufflepuff ≤ sc.gryffindor ∧ sc.ravenclaw ≤ sc.gryffindor)
  ∨ (sc.best = "Slytherin" ∧ sc.gryffindor < sc.slytherin ∧ sc.hufflepuff ≤ sc.slytherin ∧ sc.ravenclaw ≤ sc.slytherin)
  ∨ (sc.best = "Hufflepuff" ∧ sc.gryffindor < sc.hufflepuff ∧ sc.slytherin < sc.hufflepuff ∧ sc.ravenclaw ≤ sc.hufflepuff)
  ∨ (sc.best = "Ravenclaw" ∧ sc.gryffindor < sc.ravenclaw ∧ sc.slytherin < sc.ravenclaw ∧ sc.hufflepuff < sc.ravenclaw) := by
  unfold Scores.best pyMaxBySnd
  simp only [List.foldl_cons, List.foldl_nil]
  split_ifs <;> simp_all <;> omega

/-- Unfolded form of `admin_points` on the found-student branch. -/
theorem admin_points_ok (db : DB) (p : PointsRequest) (s : Student)
    (h : db.students.find? (fun t => t.id == p.student_id) = some s) :
    admin_points db p =
      (⟨db.students.map (fun t => if t.id == p.student_id then { t with total_points := s.total_points + p.delta } else t),
        adjust_house_points db.houses s.assigned_house p.delta,
        db.point_transactions ++ [⟨p.student_id, p.delta, p.reason⟩],
        db.quiz_answers⟩,
        Except.ok (s.total_points + p.delta)) := by
  unfold admin_points
  rw [h]

/-- One `admin_points` call appends one transaction for the student. -/
theorem countTx_after_ok (db : DB) (p : PointsRequest) (s : Student)
    (h : db.students.find? (fun t => t.id == p.student_id) = some s) :
    countTx (admin_points db p).1 p.student_id = countTx db p.student_id + 1 := by
  rw [admin_points_ok db p s h]
  simp [countTx, List.filter_append]

/-- A run of `admin_points` calls accumulates the deltas on the student's
stored total and appends one transaction per call. -/
theorem applyDeltas_find (sid r : String) :
    ∀ (ds : List Int) (db : DB) (s : Student),
      db.students.find? (fun t => t.id == sid) = some s →
      (applyDeltas sid r db ds).students.find? (fun t => t.id == sid)
          = some { s with total_points := s.total_points + ds.sum } ∧
      countTx (applyDeltas sid r db ds) sid = countTx db sid + ds.length := by
  intro ds
  induction ds with
  | nil =>
    intro db s h
    constructor
    · simpa [applyDeltas] using h
    · simp [applyDeltas]
  | cons d ds ih =>
    intro db s h
    have hstep := admin_points_ok db ⟨sid, d, r⟩ s h
    have hfind1 : (admin_points db ⟨sid, d, r⟩).1.students.find? (fun t => t.id == sid)
        = some { s with total_points := s.total_points + d } := by
      rw [hstep]
      exact find?_map_key Student.id sid
        (fun t => { t with total_points := s.total_points + d }) (fun x hx => hx) db.students s h
    have hcnt1 : countTx (admin_points db ⟨sid, d, r⟩).1 sid = countTx db sid + 1 :=
      countTx_after_ok db ⟨sid, d, r⟩ s h
    have happ : applyDeltas sid r db (d :: ds) = applyDeltas sid r (admin_points db ⟨sid, d, r⟩).1 ds := rfl
    obtain ⟨ih1, ih2⟩ := ih (admin_points db ⟨sid, d, r⟩).1 { s with total_points := s.total_points + d } hfind1
    constructor
    · rw [happ, ih1]
      simp [List.sum_cons, Int.add_assoc]
    · rw [happ, ih2, hcnt1]
      simp [List.length_cons]
      omega

/-- The upserted house name is present afterwards. -/
theorem any_upsertHouse_self (hs : List House) (r : House) :
    (upsertHouse hs r).any (fun h => h.name == r.name) = true := by
  unfold upsertHouse
  split_ifs with hmem
  · rcases List.any_eq_true.mp hmem with ⟨x, hx, hpx⟩
    refine List.any_eq_true.mpr ⟨r, List.mem_map.mpr ⟨x, hx, ?_⟩, by simp⟩
    simp [hpx]
  · exact List.any_eq_true.mpr ⟨r, by simp, by simp⟩

/-- An upsert never removes a present house name. -/
theorem any_upsertHouse_mono (hs : List House) (r : House) (n : String)
    (h : hs.any (fun x => x.name == n) = true) :
    (upsertHouse hs r).any (fun x => x.name == n) = true := by
  unfold upsertHouse
  rcases List.any_eq_true.mp h with ⟨x, hx, hpx⟩
  split_ifs with hmem
  · refine List.any_eq_true.mpr ?_
    by_cases hxr : x.name = r.name
    · refine ⟨r, List.mem_map.mpr ⟨x, hx, by simp [hxr]⟩, ?_⟩
      rw [show r.name = x.name from hxr.symm]
      exact hpx
    · exact ⟨x, List.mem_map.mpr ⟨x, hx, by simp [hxr]⟩, hpx⟩
  · exact List.any_eq_true.mpr ⟨x, by simp [hx], hpx⟩

/-- Presence of a house name survives a whole seeding fold. -/
theorem foldl_upsert_mono (names : List String) :
    ∀ (hs : List House) (n : String), hs.any (fun x => x.name == n) = true →
      ((names.foldl (fun acc m => upsertHouse acc ⟨m, 0⟩) hs).any (fun x => x.name == n)) = true := by
  induction names with
  | nil => intro hs n h; simpa using h
  | cons m ms ih => intro hs n h; exact ih (upsertHouse hs ⟨m, 0⟩) n (any_upsertHouse_mono hs ⟨m, 0⟩ n h)

/-- Every seeded name is present after the seeding fold. -/
theorem foldl_upsert_present (names : List String) :
    ∀ (hs : List House) (n : String), n ∈ names →
      ((names.foldl (fun acc m => upsertHouse acc ⟨m, 0⟩) hs).any (fun x => x.name == n)) = true := by
  induction names with
  | nil => intro hs n hn; simp at hn
  | cons m ms ih =>
    intro hs n hn
    rcases List.mem_cons.mp hn with rfl | hn
    · exact foldl_upsert_mono ms (upsertHouse hs ⟨n, 0⟩) n (any_upsertHouse_self hs ⟨n, 0⟩)
    · exact ih (upsertHouse hs ⟨m, 0⟩) n hn

/-- `tallyOf` at the four canonical names. -/
theorem tallyOf_g (t : Scores) : t.tallyOf "Gryffindor" = t.gryffindor := rfl

theorem tallyOf_s (t : Scores) : t.tallyOf "Slytherin" = t.slytherin := rfl

theorem tallyOf_h (t : Scores) : t.tallyOf "Hufflepuff" = t.hufflepuff := rfl

theorem tallyOf_r (t : Scores) : t.tallyOf "Ravenclaw" = t.ravenclaw := rfl

/-- `houseIdx` at the four canonical names. -/
theorem houseIdx_g : houseIdx "Gryffindor" = 0 := rfl

theorem houseIdx_s : houseIdx "Slytherin" = 1 := rfl

theorem houseIdx_h : houseIdx "Hufflepuff" = 2 := rfl

theorem houseIdx_r : houseIdx "Ravenclaw" = 3 := rfl

/-- The winner is one of the four houses. -/
theorem best_mem (t : Scores) : t.best ∈ HOUSES := by
  rcases Scores.best_spec t with ⟨hb, _, _, _⟩ | ⟨hb, _, _, _⟩ | ⟨hb, _, _, _⟩ | ⟨hb, _, _, _⟩ <;>
    rw [hb] <;> simp [HOUSES]

/-- No house tallies strictly above the winner. -/
theorem best_tally_max (t : Scores) (h : String) (hh : h ∈ HOUSES) :
    t.tallyOf h ≤ t.tallyOf t.best := by
  simp only [HOUSES, List.mem_cons, List.not_mem_nil, or_false] at hh
  rcases Scores.best_spec t with ⟨hb, ha1, ha2, ha3⟩ | ⟨hb, ha1, ha2, ha3⟩ | ⟨hb, ha1, ha2, ha3⟩ | ⟨hb, ha1, ha2, ha3⟩ <;>
    rw [hb] <;>
    rcases hh with rfl | rfl | rfl | rfl <;>
    simp only [tallyOf_g, tallyOf_s, tallyOf_h, tallyOf_r] <;>
    omega

/-- Houses earlier in canonical order than the winner tally strictly
below it (first-seen-max). -/
theorem best_tally_first (t : Scores) (h : String) (hh : h ∈ HOUSES)
    (hlt : houseIdx h < houseIdx t.best) :
    t.tallyOf h < t.tallyOf t.best := by
  simp only [HOUSES, List.mem_cons, List.not_mem_nil, or_false] at hh
  rcases Scores.best_spec t with ⟨hb, ha1, ha2, ha3⟩ | ⟨hb, ha1, ha2, ha3⟩ | ⟨hb, ha1, ha2, ha3⟩ | ⟨hb, ha1, ha2, ha3⟩ <;>
    rw [hb] at hlt ⊢ <;>
    rcases hh with rfl | rfl | rfl | rfl <;>
    simp only [houseIdx_g, houseIdx_s, houseIdx_h, houseIdx_r] at hlt <;>
    simp only [tallyOf_g, tallyOf_s, tallyOf_h, tallyOf_r] <;>
    omega

/-! ## The claims -/

/-- C1: for an existing student, `apply_change` (`POST /admin/points`)
appends exactly one `PointTransaction` with that student id, delta and
reason, persists the student's total as old total plus the delta,
returns that new total, and increments an assigned house's aggregate by
the delta; a run of n calls on a student starting at total 0 with an
empty log stores total d1+...+dn and exactly n log entries. -/
theorem admin_points_ledger_conservation (db : DB) (sid r : String) (s : Student) (d : Int)
    (h : db.students.find? (fun t => t.id == sid) = some s) :
    (∃ db2,
      admin_points db ⟨sid, d, r⟩ = (db2, Except.ok (s.total_points + d)) ∧
      db2.point_transactions = db.point_transactions ++ [⟨sid, d, r⟩] ∧
      db2.students.find? (fun t => t.id == sid) = some { s with total_points := s.total_points + d } ∧
      (∀ hn hh, s.assigned_house = some hn →
        db.houses.find? (fun x => x.name == hn) = some hh →
        db2.houses.find? (fun x => x.name == hn) = some { hh with total_points := hh.total_points + d })) ∧
    (∀ ds : List Int, s.total_points = 0 → countTx db sid = 0 →
      ((applyDeltas sid r db ds).students.find? (fun t => t.id == sid)).map Student.total_points = some ds.sum ∧
      countTx (applyDeltas sid r db ds) sid = ds.length) := by
  constructor
  · refine ⟨_, admin_points_ok db ⟨sid, d, r⟩ s h, rfl, ?_, ?_⟩
    · exact find?_map_key Student.id sid
        (fun t => { t with total_points := s.total_points + d }) (fun x hx => hx) db.students s h
    · intro hn hh h1 h2
      show (adjust_house_points db.houses s.assigned_house d).find? (fun x => x.name == hn)
          = some { hh with total_points := hh.total_points + d }
      rw [h1]
      exact adjust_house_points_find db.houses hn hh h2 d
  · intro ds h0 hc
    obtain ⟨h1, h2⟩ := applyDeltas_find sid r ds db s h
    constructor
    · rw [h1]
      simp [h0]
    · rw [h2, hc]
      omega

/-- The store and the student for the C1 witness. -/
def dbC1 : DB :=
  ⟨[⟨"u1", "Ada", "ada@x", none, none, none, some "Gryffindor", 0⟩], [⟨"Gryffindor", 3⟩], [], []⟩

/-- The row `dbC1` holds for student `u1`. -/
def stC1 : Student := ⟨"u1", "Ada", "ada@x", none, none, none, some "Gryffindor", 0⟩

/-- C1 at a concrete store: one student assigned to Gryffindor, delta 5. -/
theorem admin_points_ledger_conservation_witness :
    dbC1.students.find? (fun t => t.id == "u1") = some stC1 ∧
    ((∃ db2,
      admin_points dbC1 ⟨"u1", 5, "bonus"⟩ = (db2, Except.ok (stC1.total_points + 5)) ∧
      db2.point_transactions = dbC1.point_transactions ++ [⟨"u1", 5, "bonus"⟩] ∧
      db2.students.find? (fun t => t.id == "u1") = some { stC1 with total_points := stC1.total_points + 5 } ∧
      (∀ hn hh, stC1.assigned_house = some hn →
        dbC1.houses.find? (fun x => x.name == hn) = some hh →
        db2.houses.find? (fun x => x.name == hn) = some { hh with total_points := hh.total_points + 5 })) ∧
    (∀ ds : List Int, stC1.total_points = 0 → countTx dbC1 "u1" = 0 →
      ((applyDeltas "u1" "bonus" dbC1 ds).students.find? (fun t => t.id == "u1")).map Student.total_points = some ds.sum ∧
      countTx (applyDeltas "u1" "bonus" dbC1 ds) "u1" = ds.length)) :=
  ⟨by rfl, admin_points_ledger_conservation dbC1 "u1" "bonus" stC1 5 (by rfl)⟩

/-- C2: `apply_change` for an unknown student id fails with `NotFound`
and performs no writes at all: the store comes back unchanged. -/
theorem admin_points_unknown_student (db : DB) (p : PointsRequest)
    (h : db.students.find? (fun s => s.id == p.student_id) = none) :
    admin_points db p = (db, Except.error ApiError.notFound) := by
  unfold admin_points
  rw [h]

/-- A store with one student for the C2 witness. -/
def dbC2 : DB :=
  ⟨[⟨"u1", "Ada", "ada@x", none, none, none, none, 4⟩], [⟨"Gryffindor", 3⟩], [⟨"u1", 4, "x"⟩], []⟩

/-- C2 at a concrete store: the id `ghost` has no row. -/
theorem admin_points_unknown_student_witness :
    dbC2.students.find? (fun s => s.id == "ghost") = none ∧
    admin_points dbC2 ⟨"ghost", 5, "r"⟩ = (dbC2, Except.error ApiError.notFound) :=
  ⟨by rfl, admin_points_unknown_student dbC2 ⟨"ghost", 5, "r"⟩ (by rfl)⟩

/-- A store holding Gryffindor with 5 points. -/
def dbC3 : DB := ⟨[], [⟨"Gryffindor", 5⟩], [], []⟩

/-- C3: the bulk seeding is NOT a no-op on an existing house: it upserts
`{"name": h, "total_points": 0}` under the client's default
merge-duplicates resolution, so a Gryffindor row holding 5 points is
reset to 0 (still exactly one row per name); the spec-modelled RPC
`ensure_house_exists` is, by contrast, a no-op on an existing house. -/
theorem ensure_houses_seeded_resets :
    ((ensure_houses_seeded dbC3).houses.find? (fun h => h.name == "Gryffindor")).map House.total_points = some 0 ∧
    (ensure_houses_seeded dbC3).houses.map House.name = HOUSES ∧
    ensure_house_exists dbC3.houses "Gryffindor" = dbC3.houses := by decide

/-- C5 as stated is false: the in-code fallback of `adjust_house_points`
(src/main.py lines 96-100) is an unserialized read-modify-write, and
interleaving two `adjust(house, +1)` calls read-read-write-write against
an initial total of 0 leaves the total at 1, not 2 (a lost update). -/
theorem adjust_fallback_lost_update :
    (runRMWSchedule 0 [⟨1, none, false⟩, ⟨1, none, false⟩] [0, 1, 0, 1]).1 = 1 ∧
    ¬ (runRMWSchedule 0 [⟨1, none, false⟩, ⟨1, none, false⟩] [0, 1, 0, 1]).1 = 2 := by decide

/-- C5 amended: on the primary (spec-modelled RPC) path each
`adjust_house_points` call is a single atomic increment of the stored
total, so a run of N calls — in whatever order a scheduler serializes
the atomic increments — leaves an existing house's total at initial
plus the sum of the deltas (N for N deltas of +1). -/
theorem adjust_rpc_accumulates :
    ∀ (ds : List Int) (hs0 : List House) (name : String) (hh : House),
      hs0.find? (fun x => x.name == name) = some hh →
      ((ds.foldl (fun hs δ => adjust_house_points hs (some name) δ) hs0).find?
          (fun x => x.name == name)).map House.total_points
        = some (hh.total_points + ds.sum) := by
  intro ds
  induction ds with
  | nil =>
    intro hs0 name hh h
    simp [h]
  | cons d ds ih =>
    intro hs0 name hh h
    have hstep := adjust_house_points_find hs0 name hh h d
    have := ih (adjust_house_points hs0 (some name) d) name { hh with total_points := hh.total_points + d } hstep
    rw [List.foldl_cons]
    rw [this]
    simp [List.sum_cons, Int.add_assoc]

/-- A one-house registry for the C5 witness. -/
def hsC5 : List House := [⟨"Gryffindor", 0⟩]

/-- C5 (amended) at a concrete registry: three +1 adjustments from 0. -/
theorem adjust_rpc_accumulates_witness :
    hsC5.find? (fun x => x.name == "Gryffindor") = some ⟨"Gryffindor", 0⟩ ∧
    (([1, 1, 1].foldl (fun hs δ => adjust_house_points hs (some "Gryffindor") δ) hsC5).find?
        (fun x => x.name == "Gryffindor")).map House.total_points
      = some ((⟨"Gryffindor", 0⟩ : House).total_points + [1, 1, 1].sum) :=
  ⟨by rfl, adjust_rpc_accumulates [1, 1, 1] hsC5 "Gryffindor" ⟨"Gryffindor", 0⟩ (by rfl)⟩

/-- C4: `signup` for an email whose auth user and student row already
exist re-seeds all four house rows and then upserts the profile keyed by
the existing student id with `assigned_house = None` and
`total_points = 0`, overwriting the previously assigned house and the
previously accumulated total. -/
theorem signup_overwrites_profile (db : DB) (uid : String) (p : SignupRequest) (s : Student)
    (hs : db.students.find? (fun t => t.id == uid) = some s) :
    (signup_profile db uid p).houses = (ensure_houses_seeded db).houses ∧
    (∀ n, n ∈ HOUSES → ((signup_profile db uid p).houses.any (fun x => x.name == n)) = true) ∧
    (signup_profile db uid p).students.find? (fun t => t.id == uid)
      = some ⟨uid, p.name, p.email, p.phone, p.instagram, p.linkedin, none, 0⟩ := by
  refine ⟨rfl, ?_, ?_⟩
  · intro n hn
    exact foldl_upsert_present HOUSES db.houses n hn
  · show (upsertStudent db.students ⟨uid, p.name, p.email, p.phone, p.instagram, p.linkedin, none, 0⟩).find?
        (fun t => t.id == uid) = some ⟨uid, p.name, p.email, p.phone, p.instagram, p.linkedin, none, 0⟩
    unfold upsertStudent
    rw [if_pos (any_of_find?_some _ db.students s hs)]
    exact find?_map_key Student.id uid
      (fun _ => ⟨uid, p.name, p.email, p.phone, p.instagram, p.linkedin, none, 0⟩)
      (fun x _ => rfl) db.students s hs

/-- A store whose student `u2` already has a house and points. -/
def dbC4 : DB :=
  ⟨[⟨"u2", "Bob", "bob@x", none, none, none, some "Slytherin", 7⟩],
   [⟨"Gryffindor", 1⟩, ⟨"Slytherin", 2⟩, ⟨"Hufflepuff", 3⟩, ⟨"Ravenclaw", 4⟩], [], []⟩

/-- The signup payload resubmitted for `u2`. -/
def reqC4 : SignupRequest := ⟨"Bobby", "bob@x", none, none, none⟩

/-- C4 at a concrete store: re-signup wipes house and points of `u2`. -/
theorem signup_overwrites_profile_witness :
    dbC4.students.find? (fun t => t.id == "u2")
        = some ⟨"u2", "Bob", "bob@x", none, none, none, some "Slytherin", 7⟩ ∧
    ((signup_profile dbC4 "u2" reqC4).houses = (ensure_houses_seeded dbC4).houses ∧
    (∀ n, n ∈ HOUSES → ((signup_profile dbC4 "u2" reqC4).houses.any (fun x => x.name == n)) = true) ∧
    (signup_profile dbC4 "u2" reqC4).students.find? (fun t => t.id == "u2")
      = some ⟨"u2", reqC4.name, reqC4.email, reqC4.phone, reqC4.instagram, reqC4.linkedin, none, 0⟩) :=
  ⟨by rfl, signup_overwrites_profile dbC4 "u2" reqC4
    ⟨"u2", "Bob", "bob@x", none, none, none, some "Slytherin", 7⟩ (by rfl)⟩

/-- C6: the numeric quiz scorer returns a house whose tally no house
exceeds, every house strictly earlier in the canonical ordering
[Gryffindor, Slytherin, Hufflepuff, Ravenclaw] tallies strictly below it
(first-seen-max tie-break); numeric answers [0,1,2,3] and the empty
answer sequence both yield Gryffindor, the first house in canonical
order. -/
theorem quiz_scorer_first_max (answers : List QuizAnswer) :
    assign_house_from_quiz answers ∈ HOUSES ∧
    (∀ h, h ∈ HOUSES →
      (numTallies answers).tallyOf h ≤ (numTallies answers).tallyOf (assign_house_from_quiz answers)) ∧
    (∀ h, h ∈ HOUSES → houseIdx h < houseIdx (assign_house_from_quiz answers) →
      (numTallies answers).tallyOf h < (numTallies answers).tallyOf (assign_house_from_quiz answers)) ∧
    assign_house_from_quiz [⟨1, 0⟩, ⟨2, 1⟩, ⟨3, 2⟩, ⟨4, 3⟩] = "Gryffindor" ∧
    assign_house_from_quiz [] = "Gryffindor" :=
  ⟨best_mem (numTallies answers),
   fun h hh => best_tally_max (numTallies answers) h hh,
   fun h hh hlt => best_tally_first (numTallies answers) h hh hlt,
   by decide, by decide⟩

/-- The same first-seen-max facts for the keyword scorer, which shares
`Scores.best`. -/
theorem kw_scorer_first_max (answers : List String) :
    map_quiz_to_house answers ∈ HOUSES ∧
    (∀ h, h ∈ HOUSES →
      (kwTallies answers).tallyOf h ≤ (kwTallies answers).tallyOf (map_quiz_to_house answers)) ∧
    (∀ h, h ∈ HOUSES → houseIdx h < houseIdx (map_quiz_to_house answers) →
      (kwTallies answers).tallyOf h < (kwTallies answers).tallyOf (map_quiz_to_house answers)) ∧
    map_quiz_to_house [] = "Gryffindor" :=
  ⟨best_mem (kwTallies answers),
   fun h hh => best_tally_max (kwTallies answers) h hh,
   fun h hh hlt => best_tally_first (kwTallies answers) h hh hlt,
   by decide⟩

/-- C7: every numeric answer behaves exactly as its clamp to [0,3] — a
value at least 3 as 3, a value at most 0 as 0 — and increments by one
the tally at its clamped index in the fixed house ordering, leaving the
other tallies unchanged. -/
theorem numeric_scorer_clamps (sc : Scores) (a : QuizAnswer) :
    clampIdx a.answer_value ≤ 3 ∧
    (3 ≤ a.answer_value → numStep sc a = numStep sc ⟨a.question_id, 3⟩) ∧
    (a.answer_value ≤ 0 → numStep sc a = numStep sc ⟨a.question_id, 0⟩) ∧
    (0 ≤ a.answer_value → a.answer_value ≤ 3 → clampIdx a.answer_value = a.answer_value.toNat) ∧
    (numStep sc a).tallyAt (clampIdx a.answer_value) = sc.tallyAt (clampIdx a.answer_value) + 1 ∧
    (∀ j, j ≤ 3 → j ≠ clampIdx a.answer_value → (numStep sc a).tallyAt j = sc.tallyAt j) := by
  have hcl : clampIdx a.answer_value ≤ 3 := by
    simp only [clampIdx, max_def, min_def]
    split_ifs <;> omega
  refine ⟨hcl, ?_, ?_, ?_, ?_, ?_⟩
  · intro h3
    have : clampIdx a.answer_value = clampIdx 3 := by
      simp only [clampIdx, max_def, min_def]
      split_ifs <;> omega
    simp only [numStep, this]
  · intro h0
    have : clampIdx a.answer_value = clampIdx 0 := by
      simp only [clampIdx, max_def, min_def]
      split_ifs <;> omega
    simp only [numStep, this]
  · intro hlo hhi
    simp only [clampIdx, max_def, min_def]
    split_ifs <;> omega
  · have : clampIdx a.answer_value = 0 ∨ clampIdx a.answer_value = 1 ∨
        clampIdx a.answer_value = 2 ∨ clampIdx a.answer_value = 3 := by omega
    rcases this with hc | hc | hc | hc <;>
      simp only [numStep, hc, Scores.bumpAt, Scores.tallyAt]
  · intro j hj hne
    have hj4 : j = 0 ∨ j = 1 ∨ j = 2 ∨ j = 3 := by omega
    have : clampIdx a.answer_value = 0 ∨ clampIdx a.answer_value = 1 ∨
        clampIdx a.answer_value = 2 ∨ clampIdx a.answer_value = 3 := by omega
    rcases this with hc | hc | hc | hc <;>
      rcases hj4 with rfl | rfl | rfl | rfl <;>
      simp only [numStep, hc, Scores.bumpAt, Scores.tallyAt] <;>
      omega

/-- C8: a single answer whose lowercased text matches keywords of both
Gryffindor and Ravenclaw increments both tallies by exactly 1 in one
pass of the keyword scorer's loop, with no mutual exclusivity (and a
house whose keyword set the answer misses keeps its tally). -/
theorem keyword_scorer_multi_house (sc : Scores) (a : String)
    (hg : matchesAny (lc a) gryffKeys = true)
    (hr : matchesAny (lc a) ravenKeys = true) :
    (kwStep sc a).gryffindor = sc.gryffindor + 1 ∧
    (kwStep sc a).ravenclaw = sc.ravenclaw + 1 ∧
    (matchesAny (lc a) slythKeys = false → (kwStep sc a).slytherin = sc.slytherin) ∧
    (matchesAny (lc a) huffKeys = false → (kwStep sc a).hufflepuff = sc.hufflepuff) := by
  simp only [kwStep, hg, hr, if_true]
  split_ifs <;> simp_all

/-- C8 at a concrete input: "brave and clever" votes for both houses. -/
theorem keyword_scorer_multi_house_witness :
    matchesAny (lc "brave and clever") gryffKeys = true ∧
    matchesAny (lc "brave and clever") ravenKeys = true ∧
    ((kwStep ⟨2, 0, 0, 5⟩ "brave and clever").gryffindor = (2 : Nat) + 1 ∧
    (kwStep ⟨2, 0, 0, 5⟩ "brave and clever").ravenclaw = (5 : Nat) + 1 ∧
    (matchesAny (lc "brave and clever") slythKeys = false →
      (kwStep ⟨2, 0, 0, 5⟩ "brave and clever").slytherin = 0) ∧
    (matchesAny (lc "brave and clever") huffKeys = false →
      (kwStep ⟨2, 0, 0, 5⟩ "brave and clever").hufflepuff = 0)) :=
  ⟨by rfl, by rfl, keyword_scorer_multi_house ⟨2, 0, 0, 5⟩ "brave and clever" (by rfl) (by rfl)⟩

/-- C9: quiz submission checks nothing about the student id: for an id
with no student row it still returns the scored house as a success,
appends the `quiz_answers` record for that id, and its `students`
update matches zero rows, leaving the student table unchanged — no
`NotFound` is raised. -/
theorem submit_quiz_no_existence_check (db : DB) (uid : String) (answers : List String)
    (h : db.students.find? (fun s => s.id == uid) = none) :
    (submit_quiz db uid answers).2 = map_quiz_to_house answers ∧
    (submit_quiz db uid answers).1.quiz_answers = db.quiz_answers ++ [⟨uid, answers⟩] ∧
    (submit_quiz db uid answers).1.students = db.students := by
  refine ⟨rfl, rfl, ?_⟩
  exact map_if_id_of_find?_none (fun s => s.id == uid)
    (fun s => { s with assigned_house := some (map_quiz_to_house answers) }) db.students h

/-- A store with one student for the C9 witness. -/
def dbC9 : DB :=
  ⟨[⟨"u1", "Ada", "ada@x", none, none, none, none, 0⟩], [⟨"Gryffindor", 3⟩], [], []⟩

/-- C9 at a concrete store: the id `ghost` has no row, yet submission
succeeds and the student table is untouched. -/
theorem submit_quiz_no_existence_check_witness :
    dbC9.students.find? (fun s => s.id == "ghost") = none ∧
    ((submit_quiz dbC9 "ghost" ["brave"]).2 = map_quiz_to_house ["brave"] ∧
    (submit_quiz dbC9 "ghost" ["brave"]).1.quiz_answers = dbC9.quiz_answers ++ [⟨"ghost", ["brave"]⟩] ∧
    (submit_quiz dbC9 "ghost" ["brave"]).1.students = dbC9.students) :=
  ⟨by rfl, submit_quiz_no_existence_check dbC9 "ghost" ["brave"] (by rfl)⟩

/-- C10: both quiz scorers are pure deterministic functions of the
answer sequence alone — two calls agree, and the house `submit_quiz`
returns does not depend on the store state or the submitted id. -/
theorem quiz_scorer_deterministic (answers : List String) (nanswers : List QuizAnswer)
    (db : DB) (uid : String) :
    map_quiz_to_house answers = map_quiz_to_house answers ∧
    assign_house_from_quiz nanswers = assign_house_from_quiz nanswers ∧
    (submit_quiz db uid answers).2 = map_quiz_to_house answers :=
  ⟨rfl, rfl, rfl⟩

/-- The end-to-end scenario of the spec's §8 at concrete inputs: numeric
answers [1,1,1,0] tally (1,3,0,0) and assign Slytherin; the out-of-range
value 9 behaves as 3; a resubmission-free keyword answer sits with its
house. -/
theorem end_to_end_scenario :
    numTallies [⟨1, 1⟩, ⟨2, 1⟩, ⟨3, 1⟩, ⟨4, 0⟩] = ⟨1, 3, 0, 0⟩ ∧
    assign_house_from_quiz [⟨1, 1⟩, ⟨2, 1⟩, ⟨3, 1⟩, ⟨4, 0⟩] = "Slytherin" ∧
    assign_house_from_quiz [⟨1, 9⟩] = assign_house_from_quiz [⟨1, 3⟩] ∧
    map_quiz_to_house ["I am Loyal"] = "Hufflepuff" := by
  refine ⟨by decide, by decide, by decide, by rfl⟩
